import Mathlib

/-
Verification development for `stackyter.py`: a shallow embedding of the
script into Lean 4, together with theorems settling the specification
claims about configuration resolution, validation, port derivation and
shell-script assembly.

Modelling conventions:
* Python values flowing through the program (argparse results and parsed
  YAML) are embedded as the inductive type `PyVal`.
* Python exceptions are embedded as the inductive type `PyError`; fallible
  functions return `Except PyError _`.
* The ambient environment (environment variables, the file system, and the
  external YAML parser) is an explicit `Env` record.
* The pseudo-random draw of `np.random.randint` is abstracted by a natural
  number parameter (see `draw_port`).
* `print` calls that only emit INFO messages on stdout are not modelled;
  the prints of the show-config branch of `main` are recorded in the
  `Outcome`, since a claim is about them.
-/

namespace Stackyter

/-- A scalar-or-list Python value: the value of one option inside a
configuration profile (`None`, a string, a boolean, or a list of command
strings). -/
inductive PyLeaf where
  | none
  | str (s : String)
  | bool (b : Bool)
  | list (l : List String)
  deriving DecidableEq

/-- A Python value as it occurs in this program: `None`, strings, booleans,
lists of strings (hook command lists), and string-keyed mappings (parsed
YAML profiles, mapping option names to their values).  Mappings are
association lists with unique keys, matching insertion-ordered Python
dicts.  Values are embedded to the depth the program consumes them: the
top level of a configuration file is a mapping from profile name to
`PyVal`, a profile is a mapping from option name to scalar-or-list value;
deeper YAML nesting never reaches a branch point of the program. -/
inductive PyVal where
  | none
  | str (s : String)
  | bool (b : Bool)
  | list (l : List String)
  | dict (entries : List (String × PyLeaf))
  deriving DecidableEq

/-- The embedding of a profile-entry value into the general value type
(Python itself has a single value universe; `setattr` stores the profile
value unchanged). -/
def PyLeaf.toVal : PyLeaf → PyVal
  | .none => .none
  | .str s => .str s
  | .bool b => .bool b
  | .list l => .list l

/-- A Python exception, by class: the classes this program can raise. -/
inductive PyError where
  | ioError (msg : String)
  | valueError (msg : String)
  | keyError (key : String)
  | indexError
  | attributeError (msg : String)
  | typeError (msg : String)
  deriving DecidableEq

/-- Python truthiness (`if x:`) for the embedded values. -/
def truthy : PyVal → Bool
  | .none => false
  | .bool b => b
  | .str s => !s.data.isEmpty
  | .list l => !l.isEmpty
  | .dict es => !es.isEmpty

/-- Python `x is None` for the embedded values. -/
def isNone : PyVal → Bool
  | .none => true
  | _ => false

/-- Python `repr(x)` for a profile-entry value, as it appears inside the
`str()` of a containing list or dict (string elements are assumed not to
contain quote characters). -/
def pyLeafRepr : PyLeaf → String
  | .none => "None"
  | .str s => "\x27" ++ s ++ "\x27"
  | .bool true => "True"
  | .bool false => "False"
  | .list l => "[" ++ String.intercalate ", " (l.map (fun s => "\x27" ++ s ++ "\x27")) ++ "]"

/-- Python `str(x)` for the embedded values.  Exact for strings, `None` and
booleans, which are the only shapes the program formats in practice; the
renderings of lists and mappings follow the shape of Python repr output. -/
def pyStr : PyVal → String
  | .none => "None"
  | .str s => s
  | .bool true => "True"
  | .bool false => "False"
  | .list l => "[" ++ String.intercalate ", " (l.map (fun s => "\x27" ++ s ++ "\x27")) ++ "]"
  | .dict es =>
      "\x7b" ++ String.intercalate ", " (es.map (fun kv => "\x27" ++ kv.1 ++ "\x27: " ++ pyLeafRepr kv.2)) ++ "\x7d"

/-- The elements of a Python list value (`cmd_list.extend(x)` iterates over
them).  At every use site the value is a processed hook list, hence a
`.list`; other shapes contribute nothing. -/
def pyListElems : PyVal → List String
  | .list l => l
  | _ => []

/-- Python `s.split(",")` on the character list of `s`: cut at every comma,
keeping empty pieces (so the result is never empty).  `acc` holds the
characters of the current piece in reverse. -/
def splitCommaAux : List Char → List Char → List String
  | [], acc => [⟨acc.reverse⟩]
  | c :: t, acc => if c = ',' then ⟨acc.reverse⟩ :: splitCommaAux t [] else splitCommaAux t (c :: acc)

/-- Python `s.split(",")`. -/
def splitComma (s : String) : List String :=
  splitCommaAux s.data []

/-- `string_to_list` from `stackyter.py`: `a if isinstance(a, list) or a is
None else a.split(",")`.  On the value shapes reaching it (None, string, or
list) this is the identity except for splitting a string at commas; a
boolean argument would raise `AttributeError` in Python and never occurs. -/
def string_to_list : PyVal → PyVal
  | .list l => .list l
  | .none => .none
  | .str s => .list (splitComma s)
  | v => v

/-- Python `run.replace("$", "\$")`: every `$` character is replaced by the
two characters backslash-dollar (for a single-character pattern, `replace`
acts character by character). -/
def escChar (c : Char) : List Char :=
  if c = '$' then ['\\', '$'] else [c]

/-- Concatenation of `escChar` over a character list. -/
def escListAux : List Char → List Char
  | [] => []
  | c :: t => escChar c ++ escListAux t

/-- The escaping applied to each hook command before it is embedded in the
generated heredoc. -/
def escapeDollar (s : String) : String :=
  ⟨escListAux s.data⟩

/-- Scans a character list and checks that every `$` is immediately
preceded by a backslash (i.e. the dollar signs are escaped for the
heredoc). -/
def dollarsEscaped : List Char → Bool
  | [] => true
  | '\\' :: '$' :: t => dollarsEscaped t
  | '$' :: _ => false
  | _ :: t => dollarsEscaped t

/-- The hook-list processing of `main`:
`[run.replace("$", "\$") for run in ...]` over an already-listified value. -/
def escapeRuns : PyVal → PyVal
  | .list l => .list (l.map escapeDollar)
  | v => v

/-- The ambient environment of a run: the two environment variables the
program reads, the file system (raw file contents by path, `Option.none`
when the path does not exist), and the external YAML parser, which turns
raw file contents into a top-level mapping from profile name to value. -/
structure Env where
  stackyterconfig : Option String
  home : String
  fs : String → Option String
  parseYaml : String → List (String × PyVal)

/-- The module-level constant `DEFAULT_CONFIG = os.getenv("HOME") +
"/.stackyter-config.yaml"` (HOME is assumed set; an unset HOME would crash
at import time). -/
def DEFAULT_CONFIG (home : String) : String :=
  home ++ "/.stackyter-config.yaml"

/-- The possible results of `get_default_config`: no file found (Python
`None`), the path to the file (`only_path=True`), or its parsed contents
(`only_path=False`). -/
inductive ConfigResult where
  | noFile
  | path (p : String)
  | parsed (entries : List (String × PyVal))
  deriving BEq

/-- `get_default_config` from `stackyter.py`.  When `$STACKYTERCONFIG` is
set, the source calls `os.path.exist(config)` — an attribute that does not
exist on `os.path` — so the attribute access raises `AttributeError`
before the existence of the file is ever tested; the `IOError` branch
below it (message: `$STACKYTERCONFIG is defined but the file does not
exist.`) is unreachable.  Otherwise the fixed default path is used when it
exists, and `None` is returned when it does not. -/
def get_default_config (env : Env) (only_path : Bool) : Except PyError ConfigResult :=
  match env.stackyterconfig with
  | some _ =>
      .error (.attributeError "module \x27posixpath\x27 has no attribute \x27exist\x27")
  | Option.none =>
      match env.fs (DEFAULT_CONFIG env.home) with
      | some raw =>
          if only_path then .ok (.path (DEFAULT_CONFIG env.home))
          else .ok (.parsed (env.parseYaml raw))
      | Option.none => .ok .noFile

/-- The profile-selection core of `read_config`, operating on the parsed
top-level mapping (the INFO prints on stdout are not modelled):
if a key is requested it must be present, otherwise an `IOError` with a
descriptive message is raised; with no key, a file with more than one
top-level entry requires a `default_config` entry naming a present profile
(a `default_config` naming an absent profile raises `KeyError`, and a
non-string `default_config` value cannot match a string key — an
unhashable value would raise `TypeError`); otherwise Python evaluates
`config[list(config)[0]]`, which raises `IndexError` on an empty mapping. -/
def read_config_select (config : List (String × PyVal)) (key : Option String) : Except PyError PyVal :=
  match key with
  | some k =>
      match config.lookup k with
      | some v => .ok v
      | Option.none =>
          .error (.ioError ("Configuration `" ++ k ++ "` does not exist. Check your default file."))
  | Option.none =>
      if 1 < config.length then
        match config.lookup "default_config" with
        | some (.str name) =>
            match config.lookup name with
            | some v => .ok v
            | Option.none => .error (.keyError name)
        | some (.list _) => .error (.typeError "unhashable type: \x27list\x27")
        | some (.dict _) => .error (.typeError "unhashable type: \x27dict\x27")
        | some other => .error (.keyError (pyStr other))
        | Option.none =>
            .error (.ioError "You must define a \x27default_config\x27 in you configuration file.")
      else
        match config.head? with
        | some kv => .ok kv.2
        | Option.none => .error .indexError

/-- `read_config` from `stackyter.py`: open the file (a missing file makes
`open` raise `FileNotFoundError`, an `OSError`/`IOError`), parse it with
the external YAML parser, and select the profile. -/
def read_config (env : Env) (config : String) (key : Option String) : Except PyError PyVal :=
  match env.fs config with
  | Option.none => .error (.ioError ("No such file or directory: " ++ config))
  | some raw => read_config_select (env.parseYaml raw) key

/-- `get_config` from `stackyter.py`.  `config` and `configfile` are the
raw argparse values (a string or `None`; `pyStr` is exact on them).  When
no config file is given the default one is looked up by path
(`only_path=True`, so the `parsed` shape cannot occur). -/
def get_config (env : Env) (config configfile : PyVal) : Except PyError (Option PyVal) :=
  let cfileRes : Except PyError (Option String) :=
    match configfile with
    | .none =>
        (get_default_config env true).map
          (fun r => match r with | .path p => some p | _ => Option.none)
    | v => .ok (some (pyStr v))
  match cfileRes with
  | .error e => .error e
  | .ok cfile =>
      match config with
      | .none =>
          match cfile with
          | some p => (read_config env p Option.none).map some
          | Option.none => .ok Option.none
      | c =>
          match cfile with
          | Option.none =>
              .error (.ioError "No (default) configuration file found or given. Check the doc.")
          | some p => (read_config env p (some (pyStr c))).map some

/-- The option names of the argparse surface (the keys of the parsed
`Namespace.__dict__`). -/
inductive Key where
  | config | configfile | host | username | workdir | jupyter | mysetup
  | runbefore | runafter | compression | showconfig | tensorboard | logdir
  deriving DecidableEq

/-- The option-name string of each key, as it appears in the namespace
dictionary and hence in the profile-overlay membership test. -/
def optName : Key → String
  | .config => "config"
  | .configfile => "configfile"
  | .host => "host"
  | .username => "username"
  | .workdir => "workdir"
  | .jupyter => "jupyter"
  | .mysetup => "mysetup"
  | .runbefore => "runbefore"
  | .runafter => "runafter"
  | .compression => "compression"
  | .showconfig => "showconfig"
  | .tensorboard => "tensorboard"
  | .logdir => "logdir"

/-- The parsed options: the `Namespace.__dict__` of an argparse result. -/
def Opts : Type := Key → PyVal

/-- `parser.parse_args(args=[])`: the defaults baseline of `setup_parser`.
Every option defaults to `None` except the `store_true` flags (`False`)
and the jupyter mode (`"notebook"`). -/
def default_args : Opts := fun k =>
  match k with
  | .jupyter => .str "notebook"
  | .compression => .bool false
  | .showconfig => .bool false
  | .tensorboard => .bool false
  | _ => .none

/-- The keys in the order `args._get_kwargs()` yields them (sorted by
option name). -/
def allKeys : List Key :=
  [.compression, .config, .configfile, .host, .jupyter, .logdir, .mysetup,
   .runafter, .runbefore, .showconfig, .tensorboard, .username, .workdir]

/-- `setattr(args, k, v)`. -/
def setOpt (a : Opts) (k : Key) (v : PyVal) : Opts :=
  fun j => if j = k then v else a j

/-- One iteration of the overlay loop in `main`: if the option name is a
key of the profile and the current value equals the defaults-baseline
value (Python `==`), replace it with the profile value. -/
def overlayStep (entries : List (String × PyLeaf)) (defs : Opts) (a : Opts) (k : Key) : Opts :=
  match entries.lookup (optName k) with
  | some v => if a k == defs k then setOpt a k v.toVal else a
  | Option.none => a

/-- The configuration-overlay loop of `main`
(`for opt, val in args._get_kwargs(): ...`), run when `get_config`
returned a profile.  A selected profile that is not a mapping contributes
nothing: Python membership on such values cannot find an option-name key
for the value shapes a YAML profile file yields here. -/
def apply_config (args defs : Opts) (config : Option PyVal) : Opts :=
  match config with
  | some (.dict entries) => allKeys.foldl (overlayStep entries defs) args
  | _ => args

/-- `np.random.randint(1025, high=65634)`: a draw from the uniform
distribution on [1025, 65634).  The pseudo-random draw is abstracted by
the parameter `r`: the result is `1025 + (r mod 64609)`, whose range is
exactly the support of the distribution. -/
def draw_port (r : Nat) : Nat :=
  1025 + r % (65634 - 1025)

/-- `port_tensorboard = port + 1`. -/
def port_tensorboard (port : Nat) : Nat :=
  port + 1

/-- The `ssh` heredoc header: options `-Ytt` plus optional `C`, the fixed
local forward 20001 to the Jupyter port, the optional fixed local forward
20002 to the TensorBoard port (an empty string otherwise), and the target
host. -/
def ssh_line (args : Opts) (port : Nat) : String :=
  let ssh_options := "-" ++ "Y" ++ "tt" ++ (if truthy (args .compression) then "C" else "")
  let tunnel := "-L 20001:localhost:" ++ toString port
  let tunnel2 :=
    if truthy (args .tensorboard) then "-L 20002:localhost:" ++ toString (port_tensorboard port)
    else ""
  "ssh " ++ ssh_options ++ " " ++ tunnel ++ " " ++ tunnel2 ++ " " ++ pyStr (args .host) ++ " << EOF"

/-- `"cd {}".format(args.workdir)`. -/
def cd_line (args : Opts) : String :=
  "cd " ++ pyStr (args .workdir)

/-- `"source {}".format(args.mysetup)`. -/
def source_line (args : Opts) : String :=
  "source " ++ pyStr (args .mysetup)

/-- The Jupyter launch statement. -/
def jupyter_line (args : Opts) (port : Nat) : String :=
  "jupyter " ++ pyStr (args .jupyter) ++ " --no-browser --port=" ++ toString port ++ " --ip=127.0.0.1 &"

/-- The TensorBoard launch statement. -/
def tensorboard_line (args : Opts) (port : Nat) : String :=
  "tensorboard --logdir=" ++ pyStr (args .logdir) ++ " --port=" ++ toString (port_tensorboard port) ++ " &"

/-- `export servers=\`jupyter notebook list\``. -/
def export_servers_line : String :=
  "export servers=\\`jupyter notebook list\\`"

/-- The readiness busy-wait loop. -/
def wait_line (port : Nat) : String :=
  "while [[ \\$servers != *\x27127.0.0.1:" ++ toString port ++ "\x27* ]];do sleep 1;servers=\\`jupyter notebook list\\`;echo waiting...;done"

/-- The filtered re-query of the server list. -/
def server_line (port : Nat) : String :=
  "export servers=\\`jupyter notebook list | grep \x27127.0.0.1:" ++ toString port ++ "\x27\\`"

/-- The token-extraction pipeline. -/
def token_line : String :=
  "export TOKEN=\\`echo \\$servers | sed \x27s/\\///\\n/g\x27 | grep token | sed \x27s/ /\\n/g\x27 | grep token \\`"

/-- The URL print statement (the adjacent Python string fragments
concatenate; the `"\n"` at the start of the third fragment is a real
newline inside the statement). -/
def urlprint_line : String :=
  "printf \x27\\n Copy/paste this URL into your browser to run the notebook localy \n\\x1B[01;92m       \x27http://localhost:20001/\\$TOKEN\x27 \\x1B[0m\\n\\n\x27"

/-- The TensorBoard URL print statement. -/
def tb_print_line : String :=
  "printf \x27tensorboard\\x1B[01;92m       \x27http://localhost:20002/\x27\\x1B[0m\\n\\n\x27"

/-- `fg`. -/
def fg_line : String := "fg"

/-- The Jupyter cleanup kill. -/
def kill_line : String :=
  "kill -9 `ps | grep jupyter | awk \x27\x7bprint $1\x7d\x27`"

/-- The TensorBoard cleanup kill. -/
def tb_kill_line : String :=
  "kill -9 `ps | grep tensorboard | awk \x27\x7bprint $1\x7d\x27`"

/-- The heredoc terminator. -/
def eof_line : String := "EOF"

/-- The script-assembly section of `main` (`cmd_list = []` followed by the
straight-line sequence of conditional appends), taking the options as
mutated by the preceding steps (host prefixed, hooks processed) and the
drawn Jupyter port. -/
def build_cmd_list (args : Opts) (port : Nat) : List String :=
  let cmd_list := [ssh_line args port]
  let cmd_list := if isNone (args .workdir) then cmd_list else cmd_list ++ [cd_line args]
  let cmd_list := if truthy (args .runbefore) then cmd_list ++ pyListElems (args .runbefore) else cmd_list
  let cmd_list := if isNone (args .mysetup) then cmd_list else cmd_list ++ [source_line args]
  let cmd_list := if truthy (args .runafter) then cmd_list ++ pyListElems (args .runafter) else cmd_list
  let cmd_list := cmd_list ++ [jupyter_line args port]
  let cmd_list := if truthy (args .tensorboard) then cmd_list ++ [tensorboard_line args port] else cmd_list
  let cmd_list := cmd_list ++ [export_servers_line, wait_line port, server_line port, token_line, urlprint_line]
  let cmd_list := if truthy (args .tensorboard) then cmd_list ++ [tb_print_line] else cmd_list
  let cmd_list := cmd_list ++ [fg_line, kill_line]
  let cmd_list := if truthy (args .tensorboard) then cmd_list ++ [tb_kill_line] else cmd_list
  cmd_list ++ [eof_line]

/-- Specification-side definition, following the words of the spec: the
canonical segments of the generated script in their fixed order — SSH
heredoc header, workdir change, pre-hooks, setup source, post-hooks,
Jupyter launch, TensorBoard launch, readiness machinery (server-list
export, poll loop, filtered re-query), token extraction, URL print,
TensorBoard URL print, foreground, cleanup kills, terminator — each
optional segment empty when its option is absent. -/
def spec_segments (args : Opts) (port : Nat) : List (List String) :=
  [[ssh_line args port],
   if isNone (args .workdir) then [] else [cd_line args],
   if truthy (args .runbefore) then pyListElems (args .runbefore) else [],
   if isNone (args .mysetup) then [] else [source_line args],
   if truthy (args .runafter) then pyListElems (args .runafter) else [],
   [jupyter_line args port],
   if truthy (args .tensorboard) then [tensorboard_line args port] else [],
   [export_servers_line],
   [wait_line port],
   [server_line port],
   [token_line],
   [urlprint_line],
   if truthy (args .tensorboard) then [tb_print_line] else [],
   [fg_line],
   [kill_line],
   if truthy (args .tensorboard) then [tb_kill_line] else [],
   [eof_line]]

/-- The outcome of a run of `main`: a clean `sys.exit` with the lines
printed on the way, an uncaught exception (abnormal termination), or
completion, recording the script handed to `subprocess.call` and the exit
status of the spawned shell.  `subprocess.call`'s return value is bound to
no variable in the source, so completion falls off the end of `main`. -/
inductive Outcome where
  | exited (code : Int) (printed : List String)
  | raised (e : PyError)
  | completed (cmd : String) (shellStatus : Int)
  deriving DecidableEq

/-- The exit status of the tool's own process for an outcome: the argument
of `sys.exit`, `none` for an uncaught exception (abnormal termination),
and `0` when `main` returns normally after `subprocess.call`. -/
def toolExit : Outcome → Option Int
  | .exited c _ => some c
  | .raised _ => Option.none
  | .completed _ _ => some 0

/-- The uncaught exception of an outcome, if any. -/
def raisedError : Outcome → Option PyError
  | .raised e => some e
  | _ => Option.none

/-- The part of `main` after configuration resolution and overlay: host
validation, username prefixing, TensorBoard/logdir validation, hook
processing, port draw, script assembly and execution.  `args` is the
merged option set, `r` the abstracted pseudo-random draw, `shellStatus`
the exit status of the spawned shell. -/
def main_after_config (args : Opts) (r : Nat) (shellStatus : Int) : Outcome :=
  if isNone (args .host) then
    .raised (.valueError "You must give a valide host name (--host)")
  else
    let args :=
      if isNone (args .username) then args
      else setOpt args .host (.str (pyStr (args .username) ++ "@" ++ pyStr (args .host)))
    if truthy (args .tensorboard) && isNone (args .logdir) then
      .raised (.valueError "You must provide a logdir path to TensorBoard (--logdir)")
    else
      let args :=
        if isNone (args .runbefore) then args
        else setOpt args .runbefore (escapeRuns (string_to_list (args .runbefore)))
      let args :=
        if isNone (args .runafter) then args
        else setOpt args .runafter (escapeRuns (string_to_list (args .runafter)))
      let port := draw_port r
      .completed (String.intercalate "\n" (build_cmd_list args port)) shellStatus

/-- `main` from `stackyter.py`: the show-config branch (print the raw
default file or an absence message, then `sys.exit(0)`), then
configuration resolution, overlay, and the rest of the pipeline.  The
`parsed` shape in the show-config branch is unreachable because
`get_default_config` is called with `only_path=True`. -/
def main (env : Env) (args : Opts) (r : Nat) (shellStatus : Int) : Outcome :=
  if truthy (args .showconfig) then
    match get_default_config env true with
    | .error e => .raised e
    | .ok (.path p) =>
        .exited 0 ["Your default configuration file contains the following configuration(s).",
                   (env.fs p).getD ""]
    | .ok .noFile => .exited 0 ["Error: No default configuration file found."]
    | .ok (.parsed _) => .exited 0 []
  else
    match get_config env (args .config) (args .configfile) with
    | .error e => .raised e
    | .ok cfg => main_after_config (apply_config args default_args cfg) r shellStatus

/-! Concrete fixtures used by witnesses and counterexamples. -/

/-- An environment with `$STACKYTERCONFIG` pointing at a path that does not
exist, and no other file. -/
def env_c3 : Env :=
  ⟨some "/nonexistent/config.yaml", "/home/user", fun _ => Option.none, fun _ => []⟩

/-- An environment with `$STACKYTERCONFIG` pointing at a file that DOES
exist. -/
def env_envset : Env :=
  ⟨some "/cfg.yaml", "/home/user",
   fun p => if p = "/cfg.yaml" then some "myconf:\n  host: myhost\n" else Option.none,
   fun _ => []⟩

/-- An environment with no `$STACKYTERCONFIG` and no default file. -/
def env_nofile : Env :=
  ⟨Option.none, "/home/user", fun _ => Option.none, fun _ => []⟩

/-- An environment with no `$STACKYTERCONFIG` and a default file at
`$HOME/.stackyter-config.yaml`. -/
def env_withfile : Env :=
  ⟨Option.none, "/home/user",
   fun p => if p = "/home/user/.stackyter-config.yaml" then some "myconf:\n  host: myhost\n"
            else Option.none,
   fun _ => []⟩

/-- Parsed arguments with only `--showconfig` set. -/
def args_show : Opts := setOpt default_args .showconfig (.bool true)

/-- Parsed arguments with only `--host clihost` set. -/
def args_c1 : Opts := setOpt default_args .host (.str "clihost")

/-- A profile mapping supplying `host` and `workdir`. -/
def profile_c1 : List (String × PyLeaf) :=
  [("host", .str "profilehost"), ("workdir", .str "/data")]

/-- Merged options with a host but nothing optional: a run that reaches
execution. -/
def args_plain_host : Opts := fun k =>
  match k with
  | .host => .str "myhost"
  | .jupyter => .str "notebook"
  | _ => .none

/-- Merged options whose host is the EMPTY string (not `None`). -/
def args_empty_host : Opts := fun k =>
  match k with
  | .host => .str ""
  | .jupyter => .str "notebook"
  | _ => .none

/-- Merged options with a host, the TensorBoard flag set and no logdir. -/
def args_tb_nologdir : Opts := fun k =>
  match k with
  | .host => .str "myhost"
  | .jupyter => .str "notebook"
  | .tensorboard => .bool true
  | _ => .none

/-- The processed pre-hook list of the C7 fixture. -/
def hooks_c7 : List String := ["echo a", "echo b"]

/-- Merged options with a working directory, a setup file and two
pre-hooks. -/
def args_c7 : Opts := fun k =>
  match k with
  | .host => .str "myhost"
  | .jupyter => .str "notebook"
  | .workdir => .str "/tmp/w"
  | .mysetup => .str "/s.sh"
  | .runbefore => .list hooks_c7
  | _ => .none

/-! Helper lemmas. -/

/-- One overlay iteration on key `j` changes no other key. -/
theorem overlayStep_apply_ne (entries : List (String × PyLeaf)) (defs a : Opts) (j k : Key)
    (h : k ≠ j) : overlayStep entries defs a j k = a k := by
  unfold overlayStep
  cases entries.lookup (optName j) with
  | none => rfl
  | some v =>
      by_cases hc : (a j == defs j) = true
      · simp [hc, setOpt, h]
      · simp [hc]

/-- The overlay loop leaves keys outside the iterated list untouched. -/
theorem foldl_overlay_not_mem (entries : List (String × PyLeaf)) (defs : Opts) (k : Key) :
    ∀ (l : List Key) (a : Opts), k ∉ l →
      (l.foldl (overlayStep entries defs) a) k = a k := by
  intro l
  induction l with
  | nil => intro a _; rfl
  | cons j t ih =>
      intro a h
      rw [List.foldl_cons, ih _ (fun hm => h (List.mem_cons_of_mem _ hm)),
        overlayStep_apply_ne _ _ _ _ _ (fun e => h (by rw [e]; exact List.mem_cons_self j t))]

/-- The value of the overlay loop at a key iterated exactly once: the
profile value when the key is in the profile and the incoming value equals
the baseline, the incoming value otherwise. -/
theorem foldl_overlay_mem (entries : List (String × PyLeaf)) (defs : Opts) (k : Key) :
    ∀ (l : List Key) (a : Opts), k ∈ l → l.Nodup →
      (l.foldl (overlayStep entries defs) a) k =
        match entries.lookup (optName k) with
        | some v => if a k == defs k then v.toVal else a k
        | Option.none => a k := by
  intro l
  induction l with
  | nil => intro a hmem _; cases hmem
  | cons j t ih =>
      intro a hmem hnd
      rcases List.nodup_cons.mp hnd with ⟨hjn, hnd'⟩
      rw [List.foldl_cons]
      by_cases hkj : k = j
      · subst hkj
        rw [foldl_overlay_not_mem _ _ _ _ _ hjn]
        unfold overlayStep
        cases hl : entries.lookup (optName k) with
        | none => rfl
        | some v =>
            by_cases hc : (a k == defs k) = true
            · simp [hc, setOpt]
            · simp [hc]
      · have hkt : k ∈ t := by
          rcases List.mem_cons.mp hmem with h1 | h2
          · exact absurd h1 hkj
          · exact h2
        rw [ih _ hkt hnd', overlayStep_apply_ne _ _ _ _ _ hkj]

/-! Claim theorems. -/

/-- Claim C1: configuration overlay precedence.  For every option key, a
command-line value that differs from the parser-defaults baseline survives
the overlay unchanged regardless of the profile content, and a value equal
to the baseline is replaced by the profile value whenever the profile
defines the key. -/
theorem config_overlay_precedence (args defs : Opts) (entries : List (String × PyLeaf)) (k : Key) :
    ((args k == defs k) = false → apply_config args defs (some (.dict entries)) k = args k)
    ∧ (∀ v : PyLeaf, (args k == defs k) = true → entries.lookup (optName k) = some v →
        apply_config args defs (some (.dict entries)) k = v.toVal) := by
  have hmem : k ∈ allKeys := by cases k <;> decide
  have hnd : allKeys.Nodup := by decide
  have key := foldl_overlay_mem entries defs k allKeys args hmem hnd
  constructor
  · intro hne
    show (allKeys.foldl (overlayStep entries defs) args) k = args k
    rw [key]
    cases hl : entries.lookup (optName k) with
    | none => rfl
    | some v => simp [hne]
  · intro v heq hl
    show (allKeys.foldl (overlayStep entries defs) args) k = v.toVal
    rw [key]
    simp [hl, heq]

/-- Witness for C1 at concrete inputs: an explicit `--host clihost`
survives a profile that also sets `host`; a `host` left at its default is
replaced by the profile value. -/
theorem config_overlay_precedence_witness :
    apply_config args_c1 default_args (some (.dict profile_c1)) .host = .str "clihost"
    ∧ apply_config default_args default_args (some (.dict profile_c1)) .host = .str "profilehost" :=
  ⟨(config_overlay_precedence args_c1 default_args profile_c1 .host).1 (by decide),
   (config_overlay_precedence default_args default_args profile_c1 .host).2 _ (by decide) rfl⟩

/-- Claim C2: profile selection.  A requested profile name is looked up as
a top-level key and returned, and a missing name is a descriptive
`IOError`; with no requested name, a file with keys `a`, `b` and
`default_config: a` yields profile `a`, a file with more than one entry
and no `default_config` is a descriptive `IOError`, and a file with
exactly one entry yields that sole entry. -/
theorem profile_selection :
    (∀ (config : List (String × PyVal)) (k : String) (v : PyVal),
        config.lookup k = some v → read_config_select config (some k) = .ok v)
    ∧ (∀ (config : List (String × PyVal)) (k : String),
        config.lookup k = Option.none →
        read_config_select config (some k) =
          .error (.ioError ("Configuration `" ++ k ++ "` does not exist. Check your default file.")))
    ∧ (∀ A B : PyVal,
        read_config_select [("a", A), ("b", B), ("default_config", .str "a")] Option.none = .ok A)
    ∧ (∀ config : List (String × PyVal), 1 < config.length →
        config.lookup "default_config" = Option.none →
        read_config_select config Option.none =
          .error (.ioError "You must define a \x27default_config\x27 in you configuration file."))
    ∧ (∀ (k : String) (v : PyVal), read_config_select [(k, v)] Option.none = .ok v) := by
  refine ⟨?_, ?_, ?_, ?_, ?_⟩
  · intro config k v h
    simp only [read_config_select]
    rw [h]
  · intro config k h
    simp only [read_config_select]
    rw [h]
  · intro A B
    rfl
  · intro config h1 h2
    simp only [read_config_select]
    rw [if_pos h1, h2]
  · intro k v
    rfl

/-- Witness for C2 at concrete inputs. -/
theorem profile_selection_witness :
    read_config_select [("x", PyVal.bool true)] (some "x") = .ok (PyVal.bool true)
    ∧ read_config_select [("x", PyVal.bool true)] (some "y") =
        .error (.ioError "Configuration `y` does not exist. Check your default file.")
    ∧ read_config_select [("p", PyVal.none), ("q", PyVal.none)] Option.none =
        .error (.ioError "You must define a \x27default_config\x27 in you configuration file.") :=
  ⟨profile_selection.1 _ "x" _ rfl,
   profile_selection.2.1 _ "y" rfl,
   profile_selection.2.2.2.1 _ (by decide) rfl⟩

/-- Claim C10: with no requested name and no multi-entry branch, selection
returns the value of the first top-level entry, which requires the mapping
to be non-empty; on an empty top-level mapping the sole-entry lookup
raises `IndexError` — neither a profile nor a descriptive configuration
error. -/
theorem sole_entry_resolution :
    (∀ (config : List (String × PyVal)) (k : String) (v : PyVal),
        config.length ≤ 1 → config.head? = some (k, v) →
        read_config_select config Option.none = .ok v)
    ∧ read_config_select [] Option.none = .error PyError.indexError := by
  constructor
  · intro config k v hlen hhead
    simp only [read_config_select]
    rw [if_neg (by omega), hhead]
  · rfl

/-- Witness for C10 at a concrete one-entry mapping. -/
theorem sole_entry_resolution_witness :
    read_config_select [("solo", PyVal.bool true)] Option.none = .ok (PyVal.bool true) :=
  sole_entry_resolution.1 _ "solo" _ (by decide) rfl

/-- Claim C3 (code bug): with `$STACKYTERCONFIG` set to a path that does
not exist, locating the configuration file terminates immediately — but
with an `AttributeError` from the misspelled `os.path.exist`, not with the
file-not-found `IOError` the specification describes (that `raise` is
unreachable). -/
theorem stackyterconfig_crash :
    get_default_config env_c3 true =
      .error (.attributeError "module \x27posixpath\x27 has no attribute \x27exist\x27") := rfl

/-- Claim C6: the derived TensorBoard port is always the derived Jupyter
port plus one, and the Jupyter port always lies in [1025, 65634). -/
theorem port_pair_derivation (r : Nat) :
    port_tensorboard (draw_port r) = draw_port r + 1
    ∧ 1025 ≤ draw_port r ∧ draw_port r < 65634 := by
  refine ⟨rfl, ?_, ?_⟩ <;>
  · unfold draw_port
    have h : r % (65634 - 1025) < 65634 - 1025 := Nat.mod_lt _ (by decide)
    omega

/-- The exit status of the tool after the post-configuration pipeline:
either an uncaught exception (abnormal termination) or a normal return
with status 0 — the return value of `subprocess.call` is bound to nothing. -/
theorem main_after_config_exit (args : Opts) (r : Nat) (s : Int) :
    toolExit (main_after_config args r s) = some 0
    ∨ toolExit (main_after_config args r s) = Option.none := by
  unfold main_after_config
  dsimp only
  split_ifs <;> first | (left; rfl) | (right; rfl)

/-- Claim C4 (corrected): the spawned shell's exit status is NOT
propagated.  Every run of the tool either exits with status 0 (normal
completion after `subprocess.call`, or a show-config exit) or terminates
abnormally on an uncaught exception; the shell's status is discarded. -/
theorem shell_status_discarded (env : Env) (args : Opts) (r : Nat) (s : Int) :
    toolExit (main env args r s) = some 0 ∨ toolExit (main env args r s) = Option.none := by
  unfold main
  split_ifs
  · split <;> simp [toolExit]
  · split
    · simp [toolExit]
    · exact main_after_config_exit _ _ _

/-- Counterexample for C4 as stated: a concrete run that reaches execution
and whose spawned shell exits with status 7; the tool's own exit status is
0, not 7. -/
theorem shell_status_not_propagated :
    ¬ toolExit (main env_nofile args_plain_host 0 7) = some 7 := by
  intro h
  rw [show toolExit (main env_nofile args_plain_host 0 7) = some 0 from rfl] at h
  exact absurd h (by decide)

/-- Claim C5 (corrected): command building fails fast — before any script
is assembled, with the outcome carrying no command — with a `ValueError`
whenever the effective host is `None`, and whenever the TensorBoard flag
is truthy while `logdir` is `None`.  (A host that is the EMPTY string is
NOT rejected: see the counterexample.) -/
theorem host_and_logdir_validation (args : Opts) (r : Nat) (s : Int) :
    (isNone (args .host) = true →
      main_after_config args r s = .raised (.valueError "You must give a valide host name (--host)"))
    ∧ (isNone (args .host) = false → truthy (args .tensorboard) = true →
        isNone (args .logdir) = true →
        main_after_config args r s =
          .raised (.valueError "You must provide a logdir path to TensorBoard (--logdir)")) := by
  constructor
  · intro h
    unfold main_after_config
    rw [h]
    rfl
  · intro hh ht hl
    unfold main_after_config
    rw [hh]
    simp only [Bool.false_eq_true, if_false]
    by_cases hu : isNone (args .username) = true
    · rw [if_pos hu]
      rw [if_pos (by rw [ht, hl]; rfl)]
    · rw [if_neg hu]
      have h1 : (setOpt args .host (.str (pyStr (args .username) ++ "@" ++ pyStr (args .host)))) .tensorboard = args .tensorboard := by
        simp [setOpt]
      have h2 : (setOpt args .host (.str (pyStr (args .username) ++ "@" ++ pyStr (args .host)))) .logdir = args .logdir := by
        simp [setOpt]
      rw [if_pos (by rw [h1, h2, ht, hl]; rfl)]

/-- Witness for C5 (amended) at concrete inputs: a `None` host is rejected,
and a set host with the TensorBoard flag but no logdir is rejected. -/
theorem host_and_logdir_validation_witness :
    main_after_config default_args 0 0 =
      .raised (.valueError "You must give a valide host name (--host)")
    ∧ main_after_config args_tb_nologdir 0 0 =
        .raised (.valueError "You must provide a logdir path to TensorBoard (--logdir)") :=
  ⟨(host_and_logdir_validation default_args 0 0).1 rfl,
   (host_and_logdir_validation args_tb_nologdir 0 0).2 rfl rfl rfl⟩

/-- Counterexample for C5 as stated: with the host set to the EMPTY string
(and nothing else), command building does not fail — no exception is
raised; only `host is None` is checked. -/
theorem empty_host_not_rejected :
    raisedError (main_after_config args_empty_host 0 0) = Option.none := rfl

/-- After dollar-escaping, every `$` in the output is immediately preceded
by a backslash; the strengthened second conjunct handles an escaped output
preceded by one extra backslash. -/
theorem escListAux_escaped (t : List Char) :
    dollarsEscaped (escListAux t) = true ∧ dollarsEscaped ('\\' :: escListAux t) = true := by
  induction t with
  | nil => exact ⟨rfl, rfl⟩
  | cons c t ih =>
      obtain ⟨ih1, ih2⟩ := ih
      by_cases hc : c = '$'
      · subst hc
        exact ⟨ih1, ih1⟩
      · have he : escListAux (c :: t) = c :: escListAux t := by
          simp [escListAux, escChar, hc]
        have h1 : dollarsEscaped (c :: escListAux t) = true := by
          by_cases hb : c = '\\'
          · subst hb; exact ih2
          · rw [dollarsEscaped.eq_def]
            split <;> simp_all
        constructor
        · rw [he]; exact h1
        · rw [he, dollarsEscaped.eq_def]
          split <;> simp_all

/-- The escaping of a hook command leaves no unescaped dollar sign. -/
theorem escapeDollar_escaped (s : String) : dollarsEscaped (escapeDollar s).data = true :=
  (escListAux_escaped s.data).1

/-- The imperative append chain of the script builder produces exactly the
concatenation of the canonical ordered segments. -/
theorem build_cmd_list_eq_flatten (args : Opts) (port : Nat) :
    build_cmd_list args port = (spec_segments args port).flatten := by
  unfold build_cmd_list spec_segments
  dsimp only
  split_ifs <;> simp [List.flatten]

/-- Claim C8: for every final option set, the generated script is exactly
the flattening of the canonical ordered segments — SSH heredoc header,
workdir change, pre-hooks, setup source, post-hooks, Jupyter launch,
TensorBoard launch, readiness machinery, token extraction, URL print(s),
foreground, cleanup kill(s), terminator — with the optional segments empty
when their option is absent, so the relative order of the present steps is
invariant. -/
theorem script_statement_order (args : Opts) (port : Nat) :
    build_cmd_list args port = (spec_segments args port).flatten :=
  build_cmd_list_eq_flatten args port

/-- Claim C7: the string `"echo a,echo b"` splits into exactly the ordered
hook list `["echo a", "echo b"]`; a list value passes through
`string_to_list` unchanged; every dollar sign of a hook command is escaped
for the heredoc; and in the generated script, when a working directory and
a setup file are present, each pre-hook line sits after the `cd` line and
before the `source` line. -/
theorem runbefore_processing (args : Opts) (port : Nat) (w m : String) (hooks : List String) :
    string_to_list (PyVal.str "echo a,echo b") = PyVal.list ["echo a", "echo b"]
    ∧ (∀ l : List String, string_to_list (PyVal.list l) = PyVal.list l)
    ∧ (∀ s : String, dollarsEscaped (escapeDollar s).data = true)
    ∧ (args .workdir = PyVal.str w → args .mysetup = PyVal.str m →
        args .runbefore = PyVal.list hooks → hooks ≠ [] →
        (build_cmd_list args port)[1]? = some ("cd " ++ w)
        ∧ (∀ i, i < hooks.length → (build_cmd_list args port)[i + 2]? = hooks[i]?)
        ∧ (build_cmd_list args port)[hooks.length + 2]? = some ("source " ++ m)) := by
  refine ⟨rfl, fun l => rfl, escapeDollar_escaped, ?_⟩
  intro hw hm hr hne
  have htr : truthy (PyVal.list hooks) = true := by
    cases hooks with
    | nil => exact absurd rfl hne
    | cons a t => rfl
  have hb : build_cmd_list args port =
      ssh_line args port :: cd_line args ::
        (hooks ++ source_line args ::
          ((if truthy (args .runafter) = true then pyListElems (args .runafter) else []) ++
           jupyter_line args port ::
           ((if truthy (args .tensorboard) = true then [tensorboard_line args port] else []) ++
            export_servers_line :: wait_line port :: server_line port :: token_line :: urlprint_line ::
            ((if truthy (args .tensorboard) = true then [tb_print_line] else []) ++
             fg_line :: kill_line ::
             ((if truthy (args .tensorboard) = true then [tb_kill_line] else []) ++ [eof_line]))))) := by
    rw [build_cmd_list_eq_flatten]
    simp [spec_segments, hw, hm, hr, htr, isNone, pyListElems, List.flatten]
  refine ⟨?_, ?_, ?_⟩
  · rw [hb]
    simp [cd_line, hw, pyStr]
  · intro i hi
    rw [hb, show i + 2 = i + 1 + 1 from rfl, List.getElem?_cons_succ, List.getElem?_cons_succ,
      List.getElem?_append_left hi]
  · rw [hb, show hooks.length + 2 = hooks.length + 1 + 1 from rfl, List.getElem?_cons_succ,
      List.getElem?_cons_succ, List.getElem?_append_right (le_refl hooks.length)]
    simp [source_line, hm, pyStr]

/-- Witness for C7 at a concrete option set with a working directory, a
setup file and the two processed hooks. -/
theorem runbefore_processing_witness :
    (build_cmd_list args_c7 1025)[1]? = some ("cd " ++ "/tmp/w")
    ∧ (build_cmd_list args_c7 1025)[0 + 2]? = hooks_c7[0]?
    ∧ (build_cmd_list args_c7 1025)[hooks_c7.length + 2]? = some ("source " ++ "/s.sh") :=
  let h := (runbefore_processing args_c7 1025 "/tmp/w" "/s.sh" hooks_c7).2.2.2 rfl rfl rfl (by decide)
  ⟨h.1, h.2.1 0 (by decide), h.2.2⟩

/-- Claim C9 (code bug): with the show-config flag set, a run with no
default file prints the absence message and exits 0, and a run with a
default file at the home path prints its raw contents and exits 0 — both
without any merging, validation, building or execution; but a run with
`$STACKYTERCONFIG` set (even to an existing file) crashes with the
`AttributeError` from the misspelled `os.path.exist` instead of printing
and exiting 0. -/
theorem showconfig_crash :
    main env_envset args_show 0 0 =
      .raised (.attributeError "module \x27posixpath\x27 has no attribute \x27exist\x27")
    ∧ main env_nofile args_show 0 0 = .exited 0 ["Error: No default configuration file found."]
    ∧ main env_withfile args_show 0 0 =
        .exited 0 ["Your default configuration file contains the following configuration(s).",
                   "myconf:\n  host: myhost\n"] :=
  ⟨rfl, rfl, rfl⟩

end Stackyter
